import Mathlib

/-!
Verification of the Distributed-Imaging-Services pipeline (producer =
`apps/image_generator`, worker = `apps/feature_extractor`, sink =
`apps/data_logger`, shared library `libs/common`) against its
natural-language specification.  Every definition below is a shallow
embedding of the corresponding C++ source; machine integers are modelled
as `Nat`/`Int` with explicit wrapping where the source casts, and
fallible operations are driven by explicit Boolean/outcome oracles that
stand for the results of the external library calls (ZeroMQ, OpenCV,
SQLite, the filesystem).
-/

/-- 50 MiB payload cap, `kMaxPayloadBytes` in both image_generator and
feature_extractor (`50 * 1024 * 1024`). -/
def kMaxPayloadBytes : Nat := 50 * 1024 * 1024

/-- Bounded pending-queue push, as implemented inline in both stages:
`if (size >= max_queue_depth) pop_front(); push_back(item);`
(image_generator main.cpp lines 311-317, feature_extractor main.cpp lines
383-389).  The front of the list is the front of the `std::deque`. -/
def pendingPush {α : Type} (N : Nat) (q : List α) (x : α) : List α :=
  (if N ≤ q.length then q.tail else q) ++ [x]

/-- The producer's flush loop (image_generator main.cpp lines 253-269):
`while (!pending_frames.empty() && monitor->has_subscriber())` it pops the
front, then sends it; a send failure logs a warning and breaks out of the
loop (the popped entry is not re-queued).  `presence i` is the value of
`has_subscriber()` at the i-th iteration and `sendOk i` tells whether the
i-th send attempt succeeded.  Returns (remaining queue, frames sent). -/
def producerFlush {α : Type} (presence sendOk : Nat → Bool) :
    Nat → List α → List α × List α
  | _, [] => ([], [])
  | i, x :: q =>
    if presence i then
      if sendOk i then
        let r := producerFlush presence sendOk (i + 1) q
        (r.1, x :: r.2)
      else (q, [])
    else (x :: q, [])

/-- The worker's flush loop (feature_extractor main.cpp lines 265-271):
`while (!pending.empty())`, if `has_subscriber() && send_frame(front)`
then `pop_front()`, else break.  The front entry is popped only after a
successful send, so a failed send leaves it at the head of the queue. -/
def workerFlush {α : Type} (presence sendOk : Nat → Bool) :
    Nat → List α → List α × List α
  | _, [] => ([], [])
  | i, x :: q =>
    if presence i && sendOk i then
      let r := workerFlush presence sendOk (i + 1) q
      (r.1, x :: r.2)
    else (x :: q, [])

/-- One abstract operation on a stage's pending queue: a bounded push, a
producer-style flush, or a worker-style flush. -/
inductive QueueOp (α : Type) where
  | push (x : α)
  | flushProducer (presence sendOk : Nat → Bool)
  | flushWorker (presence sendOk : Nat → Bool)

/-- Apply one queue operation. -/
def applyQueueOp {α : Type} (N : Nat) (q : List α) : QueueOp α → List α
  | .push x => pendingPush N q x
  | .flushProducer p s => (producerFlush p s 0 q).1
  | .flushWorker p s => (workerFlush p s 0 q).1

/-- Run a sequence of queue operations from the initially empty queue
(both stages start with an empty `std::deque`). -/
def runQueueOps {α : Type} (N : Nat) (ops : List (QueueOp α)) : List α :=
  ops.foldl (applyQueueOp N) []

/-- The queue bound each stage actually uses: the configured depth when
positive, otherwise `kDefaultQueueDepth = 100` (image_generator main.cpp
lines 185-192, feature_extractor main.cpp lines 169-176). -/
def effectiveQueueDepth (configured : Int) : Nat :=
  if 0 < configured then configured.toNat else 100

-- Helper lemmas --------------------------------------------------------

theorem workerFlush_append {α : Type} (p s : Nat → Bool) :
    ∀ (i : Nat) (q : List α),
      (workerFlush p s i q).2 ++ (workerFlush p s i q).1 = q := by
  intro i q
  induction q generalizing i with
  | nil => simp [workerFlush]
  | cons x q ih =>
    by_cases h : (p i && s i) = true
    · simp [workerFlush, h, ih]
    · simp [workerFlush, h]

theorem producerFlush_append {α : Type} (p s : Nat → Bool) :
    ∀ (i : Nat) (q : List α),
      (producerFlush p s i q).2 ++ (producerFlush p s i q).1 = q
      ∨ ∃ x, (producerFlush p s i q).2 ++ x :: (producerFlush p s i q).1 = q := by
  intro i q
  induction q generalizing i with
  | nil => simp [producerFlush]
  | cons x q ih =>
    by_cases hp : p i = true
    · by_cases hs : s i = true
      · rcases ih (i + 1) with h | ⟨y, h⟩
        · exact Or.inl (by simp [producerFlush, hp, hs, h])
        · exact Or.inr ⟨y, by simp [producerFlush, hp, hs, h]⟩
      · exact Or.inr ⟨x, by simp [producerFlush, hp, hs]⟩
    · exact Or.inl (by simp [producerFlush, hp])

theorem flush_length_le {α : Type} (p s : Nat → Bool) (i : Nat) (q : List α) :
    (producerFlush p s i q).1.length ≤ q.length
    ∧ (workerFlush p s i q).1.length ≤ q.length := by
  constructor
  · rcases producerFlush_append p s i q with h | ⟨x, h⟩
    · calc (producerFlush p s i q).1.length
          ≤ ((producerFlush p s i q).2 ++ (producerFlush p s i q).1).length := by
            simp only [List.length_append]; omega
        _ = q.length := by rw [h]
    · calc (producerFlush p s i q).1.length
          ≤ ((producerFlush p s i q).2 ++ x :: (producerFlush p s i q).1).length := by
            simp only [List.length_append, List.length_cons]; omega
        _ = q.length := by rw [h]
  · have h := workerFlush_append p s i q
    calc (workerFlush p s i q).1.length
        ≤ ((workerFlush p s i q).2 ++ (workerFlush p s i q).1).length := by
          simp only [List.length_append]; omega
      _ = q.length := by rw [h]

theorem pendingPush_length_le {α : Type} (N : Nat) (hN : 1 ≤ N)
    (q : List α) (hq : q.length ≤ N) (x : α) :
    (pendingPush N q x).length ≤ N := by
  unfold pendingPush
  by_cases h : N ≤ q.length
  · have hlen : q.length = N := Nat.le_antisymm hq h
    have htail : q.tail.length = q.length - 1 := List.length_tail q
    simp only [if_pos h, List.length_append, List.length_cons, List.length_nil]
    omega
  · simp only [if_neg h, List.length_append, List.length_cons, List.length_nil]
    omega

theorem effectiveQueueDepth_pos (c : Int) : 1 ≤ effectiveQueueDepth c := by
  unfold effectiveQueueDepth
  by_cases h : 0 < c
  · simp [h]
    omega
  · simp [h]

theorem runQueueOps_aux_bounded {α : Type} (N : Nat) (hN : 1 ≤ N) :
    ∀ (ops : List (QueueOp α)) (q : List α), q.length ≤ N →
      (ops.foldl (applyQueueOp N) q).length ≤ N := by
  intro ops
  induction ops with
  | nil => intro q hq; simpa using hq
  | cons op ops ih =>
    intro q hq
    refine ih (applyQueueOp N q op) ?_
    cases op with
    | push x => exact pendingPush_length_le N hN q hq x
    | flushProducer p s =>
      exact Nat.le_trans (flush_length_le p s 0 q).1 hq
    | flushWorker p s =>
      exact Nat.le_trans (flush_length_le p s 0 q).2 hq

-- C1 -------------------------------------------------------------------

/-- C1 (counterexample): the claim states that in the producer, a failed
send during a flush pushes the failed entry back to the front so that no
entry is lost (sent ++ remaining = original queue).  Flushing the
one-entry queue `[0]` with a subscriber present and a failing send leaves
an empty queue and an empty sent list: the entry is gone. -/
theorem c1_flush_no_loss_cex :
    (producerFlush (fun _ => true) (fun _ => false) 0 [(0 : Nat)]).2 ++
      (producerFlush (fun _ => true) (fun _ => false) 0 [(0 : Nat)]).1 ≠ [0] := by
  decide

/-- C1 (amended): in the worker, a flush sends entries from the front and
a failed send leaves the failed entry at the front, so sent ++ remaining
is exactly the original queue (no entry lost).  In the producer, the
failed entry is popped before the send and is discarded on failure: the
result satisfies sent ++ remaining = queue (no failure path taken) or
sent ++ [lost entry] ++ remaining = queue (exactly the failed entry is
lost). -/
theorem c1_flush_amended {α : Type} (p s : Nat → Bool) (i : Nat) (q : List α) :
    ((workerFlush p s i q).2 ++ (workerFlush p s i q).1 = q)
    ∧ ((producerFlush p s i q).2 ++ (producerFlush p s i q).1 = q
       ∨ ∃ x, (producerFlush p s i q).2 ++ x :: (producerFlush p s i q).1 = q) :=
  ⟨workerFlush_append p s i q, producerFlush_append p s i q⟩

-- C2 -------------------------------------------------------------------

/-- C2: a push onto a full pending queue (size at or above the effective
bound) drops the oldest (front) entry and then appends the new one, and
any sequence of pushes and flushes starting from the empty queue keeps
the queue within the effective bound. -/
theorem c2_pending_queue_bounded (c : Int) (ops : List (QueueOp Nat))
    (q : List Nat) (x : Nat) (hfull : effectiveQueueDepth c ≤ q.length) :
    pendingPush (effectiveQueueDepth c) q x = q.tail ++ [x]
    ∧ (runQueueOps (effectiveQueueDepth c) ops).length ≤ effectiveQueueDepth c := by
  constructor
  · unfold pendingPush
    simp [hfull]
  · exact runQueueOps_aux_bounded (effectiveQueueDepth c)
      (effectiveQueueDepth_pos c) ops [] (by simp)

/-- C2 (witness): the bound theorem applied at depth 1, a concrete
operation list and a concrete full queue. -/
theorem c2_witness :
    pendingPush (effectiveQueueDepth 1) [5] 6 = [5].tail ++ [6]
    ∧ (runQueueOps (effectiveQueueDepth 1) [QueueOp.push 5, QueueOp.push 6]).length
        ≤ effectiveQueueDepth 1 :=
  c2_pending_queue_bounded 1 [QueueOp.push 5, QueueOp.push 6] [5] 6 (by decide)

-- Producer main loop (image_generator) ---------------------------------

/-- Outcome of one ZeroMQ send attempt as the repository's code observes
it: success, a thrown `zmq::error_t` with `num() == EAGAIN` (would-block
after the 1000 ms `sndtimeo`; the worker's `send_frame` inspects exactly
this), or a thrown `zmq::error_t` of any other kind. -/
inductive SendOutcome where
  | ok
  | wouldBlock
  | otherError
deriving DecidableEq

/-- One file of the producer's inner loop (image_generator main.cpp lines
271-351), abstracted to the outcomes of the external calls: whether
`cv::imread` produced a non-empty frame, whether `cv::imencode`
succeeded, the encoded byte count, the value of `has_subscriber()` at
the backpressure gate, and the outcome of the two-part send. -/
structure FileAttempt where
  decodeOk : Bool
  encodeOk : Bool
  encodedSize : Nat
  hasSubscriber : Bool
  send : SendOutcome
deriving DecidableEq

/-- Producer state threaded through the inner loop: the `frame_id`
counter, the pending queue and the list of published frame ids. -/
structure ProducerState where
  frame_id : Nat
  pending : List Nat
  sent : List Nat
deriving DecidableEq

/-- One iteration of the producer's per-file loop (image_generator
main.cpp lines 271-351).  Decode failure, encode failure and an oversize
encoding each `continue` (before `++frame_id`).  With no subscriber the
frame is pushed onto the bounded pending queue; with a subscriber the
two-part envelope is sent and any thrown send error makes `main` return
exit code 1 (`Except.error 1`).  `++frame_id` runs after the gate. -/
def producerProcessFile (N : Nat) (st : ProducerState) (f : FileAttempt) :
    Except Nat ProducerState :=
  if f.decodeOk = false then Except.ok st
  else if f.encodeOk = false then Except.ok st
  else if kMaxPayloadBytes < f.encodedSize then Except.ok st
  else if f.hasSubscriber = false then
    Except.ok { st with
      pending := pendingPush N st.pending st.frame_id
      frame_id := st.frame_id + 1 }
  else
    match f.send with
    | SendOutcome.ok =>
      Except.ok { st with
        sent := st.sent ++ [st.frame_id]
        frame_id := st.frame_id + 1 }
    | _ => Except.error 1

/-- One sweep of the sorted file list (the `for` loop over `images`); a
fatal send error aborts the sweep, propagating the exit code. -/
def producerSweep (N : Nat) (st : ProducerState) :
    List FileAttempt → Except Nat ProducerState
  | [] => Except.ok st
  | f :: fs =>
    match producerProcessFile N st f with
    | Except.ok st1 => producerSweep N st1 fs
    | Except.error e => Except.error e

/-- A file passes the producer's gates when it decodes, re-encodes and
its encoding is within the 50 MiB cap. -/
def passesGates (f : FileAttempt) : Bool :=
  f.decodeOk && f.encodeOk && decide (f.encodedSize ≤ kMaxPayloadBytes)

theorem producerProcessFile_frame_id (N : Nat) (st : ProducerState)
    (f : FileAttempt) (st2 : ProducerState)
    (h : producerProcessFile N st f = Except.ok st2) :
    st2.frame_id = st.frame_id + (if passesGates f then 1 else 0) := by
  unfold producerProcessFile at h
  split at h
  · rename_i hd
    injection h with h
    subst h
    simp [passesGates, hd]
  · rename_i hd
    have hd1 : f.decodeOk = true := by revert hd; cases f.decodeOk <;> simp
    split at h
    · rename_i he
      injection h with h
      subst h
      simp [passesGates, he]
    · rename_i he
      have he1 : f.encodeOk = true := by revert he; cases f.encodeOk <;> simp
      split at h
      · rename_i hsz
        injection h with h
        subst h
        have hle : ¬ (f.encodedSize ≤ kMaxPayloadBytes) := by omega
        simp [passesGates, hle]
      · rename_i hsz
        have hle : f.encodedSize ≤ kMaxPayloadBytes := by omega
        have hgate : passesGates f = true := by
          simp [passesGates, hd1, he1, hle]
        rw [hgate]
        split at h
        · injection h with h
          subst h
          simp
        · split at h
          · injection h with h
            subst h
            simp
          · exact absurd h (by simp)

theorem producerSweep_frame_id (N : Nat) :
    ∀ (fs : List FileAttempt) (st st2 : ProducerState),
      producerSweep N st fs = Except.ok st2 →
      st2.frame_id = st.frame_id + (fs.filter passesGates).length := by
  intro fs
  induction fs with
  | nil =>
    intro st st2 h
    simp only [producerSweep, Except.ok.injEq] at h
    subst h
    simp
  | cons f fs ih =>
    intro st st2 h
    unfold producerSweep at h
    cases hstep : producerProcessFile N st f with
    | error e => rw [hstep] at h; exact absurd h (by simp)
    | ok st1 =>
      rw [hstep] at h
      have h1 := producerProcessFile_frame_id N st f st1 hstep
      have h2 := ih st1 st2 h
      cases hg : passesGates f with
      | true =>
        rw [List.filter_cons_of_pos hg, List.length_cons]
        rw [hg] at h1
        simp at h1
        omega
      | false =>
        rw [List.filter_cons_of_neg (by simp [hg])]
        rw [hg] at h1
        simp at h1
        omega

-- C3 -------------------------------------------------------------------

/-- C3 (counterexample): the claim says `frame_id` is incremented once
per attempted frame, including frames whose decode fails.  Sweeping a
single file whose decode fails from `frame_id = 0` leaves `frame_id` at 0
(the `continue` on decode failure skips `++frame_id`), not 1 as the
claim requires. -/
theorem c3_frame_id_cex :
    producerSweep 100 ⟨0, [], []⟩
        [⟨false, true, 0, true, SendOutcome.ok⟩]
      = Except.ok ⟨0, [], []⟩
    ∧ (0 : Nat) ≠ 1 := by
  constructor
  · rfl
  · decide

/-- C3 (amended): within one completed sweep, `frame_id` starts at its
incoming value and is incremented exactly once for each file that passes
decode, re-encode and the size cap — whether the frame is then sent or
merely queued for lack of a subscriber — while files failing decode or
re-encode and oversize files do not advance it. -/
theorem c3_frame_id_amended (N : Nat) (fs : List FileAttempt)
    (st st2 : ProducerState) (h : producerSweep N st fs = Except.ok st2) :
    st2.frame_id = st.frame_id + (fs.filter passesGates).length :=
  producerSweep_frame_id N fs st st2 h

/-- C3 (witness): a sweep over one failing-decode file, one good sent
file and one good queued file advances `frame_id` from 0 to exactly 2. -/
theorem c3_witness :
    (⟨2, [1], [0]⟩ : ProducerState).frame_id
      = (⟨0, [], []⟩ : ProducerState).frame_id
        + (List.filter passesGates
            [⟨false, true, 0, true, SendOutcome.ok⟩,
             ⟨true, true, 7, true, SendOutcome.ok⟩,
             ⟨true, true, 7, false, SendOutcome.ok⟩]).length :=
  c3_frame_id_amended 100
    [⟨false, true, 0, true, SendOutcome.ok⟩,
     ⟨true, true, 7, true, SendOutcome.ok⟩,
     ⟨true, true, 7, false, SendOutcome.ok⟩]
    ⟨0, [], []⟩ ⟨2, [1], [0]⟩ (by rfl)
-- Worker receive loop (feature_extractor) ------------------------------

/-- `send_frame`'s Boolean result (feature_extractor main.cpp lines
231-262): `true` on a successful `zmq::send_multipart`; `false` when the
send throws, whether with `EAGAIN` (would-block, logged as "consumer not
keeping up") or any other error (logged as a failure) — both failure
kinds make the caller queue the frame. -/
def send_frame (o : SendOutcome) : Bool :=
  match o with
  | SendOutcome.ok => true
  | SendOutcome.wouldBlock => false
  | SendOutcome.otherError => false

/-- One cleanly received upstream envelope as the worker's loop body sees
it (feature_extractor main.cpp lines 300-393): whether the header JSON
parsed, whether `cv::imdecode` succeeded, the three payload byte counts
(`descriptor_bytes.size()`, `encoded.size()`, `annotated_bytes.size()`),
the value of `has_subscriber()` at the emit gate, and the send outcome. -/
structure WorkerFrameInput where
  headerParseOk : Bool
  decodeOk : Bool
  descriptorsBytes : Nat
  imageBytes : Nat
  annotatedBytes : Nat
  hasSubscriber : Bool
  send : SendOutcome
deriving DecidableEq

/-- One iteration of the worker's per-frame handling after a clean
receive (feature_extractor main.cpp lines 300-393).  Header parse
failure and decode failure `continue`; an envelope whose
`descriptor_bytes + image + annotated` total exceeds `kMaxPayloadBytes`
is dropped with a warning; otherwise, if there is no subscriber or
`send_frame` fails, the frame is pushed onto the bounded pending queue,
else it is transmitted.  Returns the new pending queue and the id of the
frame transmitted downstream, if any. -/
def workerHandleFrame (N : Nat) (pending : List Nat) (fid : Nat)
    (inp : WorkerFrameInput) : List Nat × Option Nat :=
  if inp.headerParseOk = false then (pending, none)
  else if inp.decodeOk = false then (pending, none)
  else
    let payload_bytes := inp.descriptorsBytes + inp.imageBytes + inp.annotatedBytes
    if kMaxPayloadBytes < payload_bytes then (pending, none)
    else if !inp.hasSubscriber || !send_frame inp.send then
      (pendingPush N pending fid, none)
    else (pending, some fid)

-- C5 -------------------------------------------------------------------

/-- C5: when `descriptors_bytes + image_bytes + annotated_bytes` exceeds
50 MiB (and `kMaxPayloadBytes` is exactly 52428800), the worker neither
transmits nor queues the frame: the pending queue is unchanged and
nothing is emitted, and the loop moves on to the next input. -/
theorem c5_oversize_drop (N : Nat) (pending : List Nat) (fid : Nat)
    (inp : WorkerFrameInput)
    (h : kMaxPayloadBytes <
      inp.descriptorsBytes + inp.imageBytes + inp.annotatedBytes) :
    workerHandleFrame N pending fid inp = (pending, none)
    ∧ kMaxPayloadBytes = 52428800 := by
  refine ⟨?_, by decide⟩
  unfold workerHandleFrame
  by_cases hp : inp.headerParseOk = false
  · simp [hp]
  · by_cases hd : inp.decodeOk = false
    · simp [hp, hd]
    · simp [hp, hd, h]

/-- C5 (witness): a frame of 52428801 descriptor bytes is dropped. -/
theorem c5_witness :
    workerHandleFrame 100 [3] 7 ⟨true, true, 52428801, 0, 0, true, SendOutcome.ok⟩
      = ([3], none)
    ∧ kMaxPayloadBytes = 52428800 :=
  c5_oversize_drop 100 [3] 7 ⟨true, true, 52428801, 0, 0, true, SendOutcome.ok⟩
    (by decide)

-- C6 -------------------------------------------------------------------

/-- C6 (counterexample): the claim says a would-block send failure makes
the producer queue the envelope and is never fatal.  In the producer's
direct-send path any thrown send error — the would-block kind included —
hits the `catch` that returns exit code 1: processing a decodable,
in-cap frame with a subscriber present and a would-block send terminates
the stage with exit code 1 and queues nothing. -/
theorem c6_would_block_cex :
    producerProcessFile 100 ⟨0, [], []⟩
        ⟨true, true, 10, true, SendOutcome.wouldBlock⟩
      = Except.error 1 := by
  rfl

/-- C6 (amended): in the worker, a send failing with would-block (or not
attempted for lack of a subscriber) results in the envelope being
appended to the bounded pending queue and never terminates the stage; in
the producer, only the no-subscriber case queues — a send that fails
after the 1000 ms timeout on the direct-send path terminates the stage
with exit code 1. -/
theorem c6_would_block_amended (N : Nat) (pending : List Nat) (fid : Nat)
    (d i a : Nat) (st : ProducerState) (f : FileAttempt)
    (hcap : d + i + a ≤ kMaxPayloadBytes)
    (hgate : passesGates f = true) :
    workerHandleFrame N pending fid ⟨true, true, d, i, a, true, SendOutcome.wouldBlock⟩
      = (pendingPush N pending fid, none)
    ∧ (f.hasSubscriber = true → f.send = SendOutcome.wouldBlock →
        producerProcessFile N st f = Except.error 1)
    ∧ (f.hasSubscriber = false →
        producerProcessFile N st f
          = Except.ok { st with
              pending := pendingPush N st.pending st.frame_id
              frame_id := st.frame_id + 1 }) := by
  have hd : f.decodeOk = true := by
    have := hgate
    unfold passesGates at this
    cases hv : f.decodeOk
    · rw [hv] at this; simp at this
    · rfl
  have he : f.encodeOk = true := by
    have := hgate
    unfold passesGates at this
    cases hv : f.encodeOk
    · rw [hv] at this; simp at this
    · rfl
  have hsz : ¬ (kMaxPayloadBytes < f.encodedSize) := by
    have := hgate
    unfold passesGates at this
    by_cases hv : f.encodedSize ≤ kMaxPayloadBytes
    · omega
    · rw [decide_eq_false hv] at this; simp at this
  refine ⟨?_, ?_, ?_⟩
  · unfold workerHandleFrame
    have : ¬ (kMaxPayloadBytes < d + i + a) := by omega
    simp [send_frame, this]
  · intro hsub hsnd
    unfold producerProcessFile
    simp [hd, he, hsz, hsub, hsnd]
  · intro hsub
    unfold producerProcessFile
    simp [hd, he, hsz, hsub]

/-- C6 (witness): the amended behavior at a concrete frame and producer
state, for both the no-subscriber and the would-block cases. -/
theorem c6_witness :
    workerHandleFrame 100 [3] 7 ⟨true, true, 1, 2, 3, true, SendOutcome.wouldBlock⟩
      = (pendingPush 100 [3] 7, none)
    ∧ ((⟨true, true, 10, true, SendOutcome.wouldBlock⟩ : FileAttempt).hasSubscriber = true →
        (⟨true, true, 10, true, SendOutcome.wouldBlock⟩ : FileAttempt).send = SendOutcome.wouldBlock →
        producerProcessFile 100 ⟨0, [], []⟩ ⟨true, true, 10, true, SendOutcome.wouldBlock⟩
          = Except.error 1)
    ∧ ((⟨true, true, 10, true, SendOutcome.wouldBlock⟩ : FileAttempt).hasSubscriber = false →
        producerProcessFile 100 ⟨0, [], []⟩ ⟨true, true, 10, true, SendOutcome.wouldBlock⟩
          = Except.ok { (⟨0, [], []⟩ : ProducerState) with
              pending := pendingPush 100 [] 0
              frame_id := 0 + 1 }) :=
  c6_would_block_amended 100 [3] 7 1 2 3 ⟨0, [], []⟩
    ⟨true, true, 10, true, SendOutcome.wouldBlock⟩ (by decide) (by decide)

-- Sink (data_logger) ---------------------------------------------------

/-- The `source` sub-object of a processed-envelope header as the sink
reads it (data_logger main.cpp lines 276-286): each field is `none` when
the key is missing from the JSON. -/
structure SourceJson where
  frame_id : Option Int := none
  loop_iteration : Option Int := none
  timestamp : Option String := none
  filename : Option String := none
  width : Option Int := none
  height : Option Int := none
  channels : Option Int := none
  encoding : Option String := none
deriving DecidableEq

/-- A parsed processed-envelope header as the sink reads it (data_logger
main.cpp lines 276-292); `source = none` models a missing `source` key,
for which the code substitutes an empty JSON object. -/
structure HeaderJson where
  source : Option SourceJson := none
  processed_timestamp : Option String := none
  keypoint_count : Option Nat := none
  descriptor_rows : Option Int := none
  descriptor_cols : Option Int := none
  descriptor_elem_size : Option Int := none
  descriptor_type : Option Int := none
deriving DecidableEq

/-- The metadata values the sink extracts from one header. -/
structure ExtractedFields where
  frame_id : Int
  loop_iteration : Int
  source_timestamp : String
  processed_timestamp : String
  filename : String
  width : Int
  height : Int
  channels : Int
  encoding : String
  keypoint_count : Nat
  descriptor_rows : Int
  descriptor_cols : Int
  descriptor_elem_size : Int
  descriptor_type : Int
deriving DecidableEq

/-- Field extraction with defaults (data_logger main.cpp lines 276-292).
`nowIso` is the value `dist::common::now_iso8601()` would return, used
only when `processed_timestamp` is missing.  `keypoint_count` is read as
`std::size_t` (unsigned 64-bit), modelled as `Nat`. -/
def extractHeaderFields (h : HeaderJson) (nowIso : String) : ExtractedFields :=
  let src := h.source.getD {}
  { frame_id := src.frame_id.getD (-1)
  , loop_iteration := src.loop_iteration.getD 0
  , source_timestamp := src.timestamp.getD ""
  , processed_timestamp := h.processed_timestamp.getD nowIso
  , filename := src.filename.getD "frame.png"
  , width := src.width.getD 0
  , height := src.height.getD 0
  , channels := src.channels.getD 0
  , encoding := src.encoding.getD "png"
  , keypoint_count := h.keypoint_count.getD 0
  , descriptor_rows := h.descriptor_rows.getD 0
  , descriptor_cols := h.descriptor_cols.getD 0
  , descriptor_elem_size := h.descriptor_elem_size.getD 0
  , descriptor_type := h.descriptor_type.getD 0 }

/-- `static_cast<int>` of an unsigned size: reduce modulo 2^32 and
reinterpret as a two's-complement signed 32-bit value. -/
def toInt32 (n : Nat) : Int :=
  let m : Nat := n % 2 ^ 32
  if m < 2 ^ 31 then (m : Int) else (m : Int) - 2 ^ 32

/-- `std::isalnum(c) || c == '-' || c == '_' || c == '.'` (C locale). -/
def keepFilenameChar (c : Char) : Bool :=
  c.isAlphanum || c = '-' || c = '_' || c = '.'

/-- `sanitize_filename` (data_logger main.cpp lines 51-59): any character
outside `[A-Za-z0-9._-]` becomes an underscore. -/
def sanitize_filename (s : String) : String :=
  String.mk (s.data.map (fun c => if keepFilenameChar c then c else '_'))

/-- `std::setw(6) << std::setfill('0')` applied to a non-negative value:
left-pad the decimal digits to at least six characters with zeros. -/
def zeroPad6 (n : Nat) : String :=
  let s := toString n
  if s.length < 6 then String.mk (List.replicate (6 - s.length) '0') ++ s else s

/-- The raw/annotated filename stem,
`frame_{max(frame_id,0):06}_{sanitized(processed_timestamp)}`
(data_logger main.cpp lines 298-301 and 317-320). -/
def frameFileStem (frame_id : Int) (processed_timestamp : String) : String :=
  "frame_" ++ zeroPad6 (max frame_id 0).toNat ++ "_"
    ++ sanitize_filename processed_timestamp

/-- One row of the `frames` table as the sink binds it (data_logger
main.cpp lines 344-373).  `descriptors_bytes` is bound as
`static_cast<int>(descriptor_blob.size())` — the size of the received
descriptors part, not the header's `descriptors_bytes` value, which the
sink never reads.  `descriptors = none` models the null-blob binding
taken when the received part is empty. -/
structure FrameRow where
  frame_id : Int
  loop_iteration : Int
  source_timestamp : String
  processed_timestamp : String
  filename : String
  width : Int
  height : Int
  channels : Int
  encoding : String
  keypoint_count : Nat
  descriptor_rows : Int
  descriptor_cols : Int
  descriptor_elem_size : Int
  descriptor_type : Int
  descriptors_bytes : Int
  image_path : String
  metadata_json : String
  descriptors : Option (List Nat)
  created_at : String
deriving DecidableEq

/-- Build the row bound by the prepared insert statement (data_logger
main.cpp lines 344-373) from the extracted fields, the received
descriptors part, and the remaining text columns. -/
def buildFrameRow (f : ExtractedFields) (descriptorBlob : List Nat)
    (imagePath metadataJson createdAt : String) : FrameRow :=
  { frame_id := f.frame_id
  , loop_iteration := f.loop_iteration
  , source_timestamp := f.source_timestamp
  , processed_timestamp := f.processed_timestamp
  , filename := f.filename
  , width := f.width
  , height := f.height
  , channels := f.channels
  , encoding := f.encoding
  , keypoint_count := f.keypoint_count
  , descriptor_rows := f.descriptor_rows
  , descriptor_cols := f.descriptor_cols
  , descriptor_elem_size := f.descriptor_elem_size
  , descriptor_type := f.descriptor_type
  , descriptors_bytes := toInt32 descriptorBlob.length
  , image_path := imagePath
  , metadata_json := metadataJson
  , descriptors := if 0 < descriptorBlob.length then some descriptorBlob else none
  , created_at := createdAt }

/-- A downstream envelope after the sink's multipart receive: parsed
header (`none` on JSON parse failure), the received descriptors and
image parts, and the optional fourth (annotated) part. -/
structure SinkEnvelope where
  header : Option HeaderJson
  descriptorsPart : List Nat
  imagePart : List Nat
  annotatedPart : Option (List Nat)

/-- Outcomes of the sink's external effects for one envelope: whether the
raw image `std::ofstream` opened, whether the annotated one opened, and
whether `sqlite3_step` returned `SQLITE_DONE`. -/
structure SinkEffects where
  rawOpenOk : Bool
  annotatedOpenOk : Bool
  insertOk : Bool
deriving DecidableEq

/-- What one iteration of the sink loop durably produced. -/
structure SinkResult where
  rawWritten : Option (String × List Nat)
  annotatedWritten : Option (String × List Nat)
  insertedRow : Option FrameRow

/-- One iteration of the sink's receive loop after a clean multipart
receive (data_logger main.cpp lines 264-383).  `dump` stands for
`nlohmann::json::dump` on the header, possibly augmented with
`annotated_path`.  A header parse failure drops the envelope.  A raw
`ofstream` open failure logs and skips the frame with no insert.  An
annotated open failure is non-fatal and merely omits `annotated_path`.
The row is inserted only when `sqlite3_step` succeeds. -/
def sinkProcessEnvelope (dump : HeaderJson → Option String → String)
    (rawDir annDir nowFallbackTs nowCreatedTs : String)
    (env : SinkEnvelope) (fx : SinkEffects) : SinkResult :=
  match env.header with
  | none => { rawWritten := none, annotatedWritten := none, insertedRow := none }
  | some h =>
    let f := extractHeaderFields h nowFallbackTs
    let stem := frameFileStem f.frame_id f.processed_timestamp
    let image_path := rawDir ++ "/" ++ stem ++ ".png"
    if fx.rawOpenOk = false then
      { rawWritten := none, annotatedWritten := none, insertedRow := none }
    else
      let annotated_path := annDir ++ "/" ++ stem ++ "_annotated.png"
      let annotated_saved : Bool :=
        match env.annotatedPart with
        | some ann => decide (0 < ann.length) && fx.annotatedOpenOk
        | none => false
      let annPathOpt := if annotated_saved then some annotated_path else none
      let row := buildFrameRow f env.descriptorsPart image_path
        (dump h annPathOpt) nowCreatedTs
      { rawWritten := some (image_path, env.imagePart)
      , annotatedWritten :=
          match env.annotatedPart with
          | some ann =>
            if decide (0 < ann.length) && fx.annotatedOpenOk
            then some (annotated_path, ann) else none
          | none => none
      , insertedRow := if fx.insertOk then some row else none }

-- C4 -------------------------------------------------------------------

/-- C4: the sink inserts a `frames` row only if the raw image write was
performed: an open failure on the raw image file skips the frame with no
row, an insert failure leaves no row, and when the header parses and the
raw file opens the image is written even if the later insert fails (the
file may linger as an orphan). -/
theorem c4_sink_row_requires_image (dump : HeaderJson → Option String → String)
    (rawDir annDir t1 t2 : String) (env : SinkEnvelope) (fx : SinkEffects) :
    ((sinkProcessEnvelope dump rawDir annDir t1 t2 env fx).insertedRow.isSome = true →
      (sinkProcessEnvelope dump rawDir annDir t1 t2 env fx).rawWritten.isSome = true)
    ∧ (fx.rawOpenOk = false →
        (sinkProcessEnvelope dump rawDir annDir t1 t2 env fx).insertedRow = none)
    ∧ (fx.insertOk = false →
        (sinkProcessEnvelope dump rawDir annDir t1 t2 env fx).insertedRow = none)
    ∧ (env.header.isSome = true → fx.rawOpenOk = true →
        (sinkProcessEnvelope dump rawDir annDir t1 t2 env fx).rawWritten.isSome = true) := by
  cases hh : env.header with
  | none => simp [sinkProcessEnvelope, hh]
  | some h =>
    cases hro : fx.rawOpenOk with
    | false => simp [sinkProcessEnvelope, hh, hro]
    | true =>
      cases hio : fx.insertOk with
      | false => simp [sinkProcessEnvelope, hh, hro, hio]
      | true => simp [sinkProcessEnvelope, hh, hro, hio]

/-- C4 (witness): with a parsed header, a successful raw open and a
failing insert, the image is written and no row is inserted. -/
theorem c4_witness :
    ((sinkProcessEnvelope (fun _ _ => "m") "r" "a" "T" "C"
        ⟨some {}, [9], [2], none⟩ ⟨true, true, false⟩).insertedRow.isSome = true →
      (sinkProcessEnvelope (fun _ _ => "m") "r" "a" "T" "C"
        ⟨some {}, [9], [2], none⟩ ⟨true, true, false⟩).rawWritten.isSome = true)
    ∧ ((⟨true, true, false⟩ : SinkEffects).rawOpenOk = false →
        (sinkProcessEnvelope (fun _ _ => "m") "r" "a" "T" "C"
          ⟨some {}, [9], [2], none⟩ ⟨true, true, false⟩).insertedRow = none)
    ∧ ((⟨true, true, false⟩ : SinkEffects).insertOk = false →
        (sinkProcessEnvelope (fun _ _ => "m") "r" "a" "T" "C"
          ⟨some {}, [9], [2], none⟩ ⟨true, true, false⟩).insertedRow = none)
    ∧ ((⟨some {}, [9], [2], none⟩ : SinkEnvelope).header.isSome = true →
        (⟨true, true, false⟩ : SinkEffects).rawOpenOk = true →
        (sinkProcessEnvelope (fun _ _ => "m") "r" "a" "T" "C"
          ⟨some {}, [9], [2], none⟩ ⟨true, true, false⟩).rawWritten.isSome = true) :=
  c4_sink_row_requires_image (fun _ _ => "m") "r" "a" "T" "C"
    ⟨some {}, [9], [2], none⟩ ⟨true, true, false⟩

-- C7 -------------------------------------------------------------------

/-- C7 (counterexample): the claim says every missing string field
defaults to the empty string, but a missing `filename` defaults to
`"frame.png"`. -/
theorem c7_header_defaults_cex :
    (extractHeaderFields {} "2024-01-01T00:00:00Z").filename = "frame.png"
    ∧ "frame.png" ≠ "" := by
  exact ⟨rfl, by decide⟩

/-- C7 (amended): missing header fields take exactly these defaults:
`frame_id` −1, `loop_iteration` 0, `source_timestamp` and the other
string fields the empty string except `filename`, which defaults to
`"frame.png"`, dimensions 0, `encoding` `"png"`, `processed_timestamp`
the current UTC time; `keypoint_count` is read as an unsigned 64-bit
value defaulting to 0. -/
theorem c7_header_defaults_amended (ts : String) :
    extractHeaderFields {} ts
      = { frame_id := -1, loop_iteration := 0, source_timestamp := ""
        , processed_timestamp := ts, filename := "frame.png"
        , width := 0, height := 0, channels := 0, encoding := "png"
        , keypoint_count := 0, descriptor_rows := 0, descriptor_cols := 0
        , descriptor_elem_size := 0, descriptor_type := 0 } := rfl

-- C10 ------------------------------------------------------------------

/-- C10 (counterexample): the claim says the `descriptors_bytes` column
always equals the byte length of the received descriptors part, but the
sink binds `static_cast<int>(descriptor_blob.size())`: a part of 2^31
bytes is stored as −2^31. -/
theorem c10_descriptors_cex :
    (buildFrameRow (extractHeaderFields {} "T") (List.replicate (2 ^ 31) 0)
        "p" "m" "c").descriptors_bytes = -(2 ^ 31)
    ∧ ((List.replicate (2 ^ 31) (0 : Nat)).length : Int) = 2 ^ 31
    ∧ ((2 ^ 31 : Int) ≠ -(2 ^ 31)) := by
  refine ⟨?_, by rw [List.length_replicate]; norm_num, by decide⟩
  simp only [buildFrameRow]
  rw [List.length_replicate]
  unfold toInt32
  norm_num

/-- C10 (amended): for every row the sink inserts, the
`descriptors_bytes` column is the received descriptors part's byte
length cast to a signed 32-bit integer — so it equals the length
whenever the part is below 2^31 bytes — it never depends on the header's
claimed value, and the `descriptors` column is the null blob exactly
when the received part is empty. -/
theorem c10_descriptors_amended (f g : ExtractedFields) (blob : List Nat)
    (p m c : String) (dump : HeaderJson → Option String → String)
    (rd ad t1 t2 : String) (env : SinkEnvelope) (fx : SinkEffects)
    (row : FrameRow) (hlen : blob.length < 2 ^ 31)
    (hins : (sinkProcessEnvelope dump rd ad t1 t2 env fx).insertedRow = some row) :
    (buildFrameRow f blob p m c).descriptors_bytes = (blob.length : Int)
    ∧ ((buildFrameRow f blob p m c).descriptors = none ↔ blob = [])
    ∧ (buildFrameRow f blob p m c).descriptors_bytes
        = (buildFrameRow g blob p m c).descriptors_bytes
    ∧ row.descriptors_bytes = toInt32 env.descriptorsPart.length
    ∧ (row.descriptors = none ↔ env.descriptorsPart = []) := by
  have hmod : blob.length % 2 ^ 32 = blob.length := Nat.mod_eq_of_lt (by omega)
  have hcast : toInt32 blob.length = (blob.length : Int) := by
    unfold toInt32
    rw [hmod]
    rw [if_pos hlen]
  have hnull : ∀ (b : List Nat),
      ((if 0 < b.length then some b else none) = none ↔ b = []) := by
    intro b
    cases b with
    | nil => simp
    | cons x xs => simp
  refine ⟨hcast, ?_, rfl, ?_, ?_⟩
  · show (if 0 < blob.length then some blob else none) = none ↔ blob = []
    exact hnull blob
  · cases hh : env.header with
    | none => simp [sinkProcessEnvelope, hh] at hins
    | some h =>
      cases hro : fx.rawOpenOk with
      | false => simp [sinkProcessEnvelope, hh, hro] at hins
      | true =>
        cases hio : fx.insertOk with
        | false => simp [sinkProcessEnvelope, hh, hro, hio] at hins
        | true =>
          simp [sinkProcessEnvelope, hh, hro, hio] at hins
          rw [← hins]
          rfl
  · cases hh : env.header with
    | none => simp [sinkProcessEnvelope, hh] at hins
    | some h =>
      cases hro : fx.rawOpenOk with
      | false => simp [sinkProcessEnvelope, hh, hro] at hins
      | true =>
        cases hio : fx.insertOk with
        | false => simp [sinkProcessEnvelope, hh, hro, hio] at hins
        | true =>
          simp [sinkProcessEnvelope, hh, hro, hio] at hins
          rw [← hins]
          exact hnull env.descriptorsPart

/-- C10 (witness): the amended statement at a one-byte descriptors part
flowing through a successful sink iteration. -/
theorem c10_witness :
    (buildFrameRow (extractHeaderFields {} "T") [9] "p" "m" "C").descriptors_bytes
        = (([9] : List Nat).length : Int)
    ∧ ((buildFrameRow (extractHeaderFields {} "T") [9] "p" "m" "C").descriptors = none
        ↔ ([9] : List Nat) = [])
    ∧ (buildFrameRow (extractHeaderFields {} "T") [9] "p" "m" "C").descriptors_bytes
        = (buildFrameRow (extractHeaderFields {} "T") [9] "p" "m" "C").descriptors_bytes
    ∧ (buildFrameRow (extractHeaderFields {} "T") [9]
          ("r" ++ "/" ++ frameFileStem
            (extractHeaderFields {} "T").frame_id
            (extractHeaderFields {} "T").processed_timestamp ++ ".png")
          ((fun (_ : HeaderJson) (_ : Option String) => "m") {} none) "C").descriptors_bytes
        = toInt32 (⟨some {}, [9], [2], none⟩ : SinkEnvelope).descriptorsPart.length
    ∧ ((buildFrameRow (extractHeaderFields {} "T") [9]
          ("r" ++ "/" ++ frameFileStem
            (extractHeaderFields {} "T").frame_id
            (extractHeaderFields {} "T").processed_timestamp ++ ".png")
          ((fun (_ : HeaderJson) (_ : Option String) => "m") {} none) "C").descriptors = none
        ↔ (⟨some {}, [9], [2], none⟩ : SinkEnvelope).descriptorsPart = []) :=
  c10_descriptors_amended (extractHeaderFields {} "T") (extractHeaderFields {} "T")
    [9] "p" "m" "C" (fun _ _ => "m") "r" "a" "T" "C"
    ⟨some {}, [9], [2], none⟩ ⟨true, true, true⟩
    (buildFrameRow (extractHeaderFields {} "T") [9]
      ("r" ++ "/" ++ frameFileStem
        (extractHeaderFields {} "T").frame_id
        (extractHeaderFields {} "T").processed_timestamp ++ ".png")
      ((fun (_ : HeaderJson) (_ : Option String) => "m") {} none) "C")
    (by decide) rfl

-- Shared library: configuration (libs/common/src/config.cpp) ------------

/-- `std::isspace` in the C locale. -/
def isSpaceC (c : Char) : Bool :=
  c = ' ' || c = '\t' || c = '\n' || c = '\x0b' || c = '\x0c' || c = '\r'

/-- Value of a run of decimal digit characters. -/
def natOfDigits (ds : List Char) : Nat :=
  ds.foldl (fun acc c => acc * 10 + (c.toNat - 48)) 0

/-- `std::stoi` with base 10, as `to_int` observes it (config.cpp lines
8-17): skip leading whitespace and an optional sign, then require at
least one decimal digit (`std::invalid_argument` → `none`); trailing
characters are ignored; values outside the 32-bit `int` range raise
`std::out_of_range` → `none`. -/
def stoi (s : String) : Option Int :=
  let cs := s.data.dropWhile isSpaceC
  let signed : Bool × List Char :=
    match cs with
    | '-' :: rest => (true, rest)
    | '+' :: rest => (false, rest)
    | _ => (false, cs)
  let ds := signed.2.takeWhile Char.isDigit
  if ds.isEmpty then none
  else
    let v : Int :=
      if signed.1 then -(natOfDigits ds : Int) else (natOfDigits ds : Int)
    if v < -(2 ^ 31) || 2 ^ 31 - 1 < v then none else some v

/-- The observable content of an `EnvLoader` (its `get` method). -/
abbrev EnvMap : Type := String → Option String

/-- `to_int` (config.cpp lines 8-17): parsed value of the key, or the
fallback when the key is absent or the parse throws. -/
def to_int (env : EnvMap) (key : String) (fallback : Int) : Int :=
  match env key with
  | some v => (stoi v).getD fallback
  | none => fallback

/-- `std::stod` as `to_double` observes it, over exact rationals: leading
whitespace, optional sign, decimal digits with an optional fractional
part.  The hexadecimal, exponent and inf/nan forms `stod` also accepts,
and IEEE-754 rounding of the result, are abstracted away: every claim
under verification exercises only the absent-key path of `to_double`. -/
def stodQ (s : String) : Option Rat :=
  let cs := s.data.dropWhile isSpaceC
  let signed : Bool × List Char :=
    match cs with
    | '-' :: rest => (true, rest)
    | '+' :: rest => (false, rest)
    | _ => (false, cs)
  let ds := signed.2.takeWhile Char.isDigit
  let rest := signed.2.drop ds.length
  let frac : List Char :=
    match rest with
    | '.' :: r => r.takeWhile Char.isDigit
    | _ => []
  if ds.isEmpty && frac.isEmpty then none
  else
    let mag : Rat :=
      (natOfDigits ds : Rat) + (natOfDigits frac : Rat) / ((10 : Rat) ^ frac.length)
    some (if signed.1 then -mag else mag)

/-- `to_double` (config.cpp lines 19-28). -/
def to_double (env : EnvMap) (key : String) (fallback : Rat) : Rat :=
  match env key with
  | some v => (stodQ v).getD fallback
  | none => fallback

/-- `EnvLoader::get_or` (env_loader.cpp lines 98-104). -/
def get_or (env : EnvMap) (key fallback : String) : String :=
  (env key).getD fallback

/-- POSIX `std::filesystem::path::is_relative`: no leading slash. -/
def isRelativePath (s : String) : Bool :=
  match s.data with
  | '/' :: _ => false
  | _ => true

/-- `to_path` (config.cpp lines 30-41): the key's value, resolved
against `root` when relative; otherwise the fallback, likewise
resolved. -/
def to_path (env : EnvMap) (key fallback root : String) : String :=
  match env key with
  | some v => if isRelativePath v then root ++ "/" ++ v else v
  | none => if isRelativePath fallback then root ++ "/" ++ fallback else fallback

/-- `GlobalConfig` (config.hpp) with its member initializers. -/
structure GlobalConfig where
  log_level : String := "info"
deriving DecidableEq

/-- `ImageGeneratorConfig` (config.hpp) with its member initializers. -/
structure ImageGeneratorConfig where
  input_dir : String := ""
  loop_delay_ms : Int := 100
  start_delay_ms : Int := 500
  subscriber_wait_ms : Int := 1000
  pub_endpoint : String := ""
  heartbeat_ms : Int := 2000
  queue_depth : Int := 100
deriving DecidableEq

/-- `FeatureExtractorConfig` (config.hpp); the two `double` members are
carried as exact rationals (see `stodQ`). -/
structure FeatureExtractorConfig where
  sub_endpoint : String := ""
  pub_endpoint : String := ""
  sift_n_features : Int := 0
  sift_contrast_threshold : Rat := 4 / 100
  sift_edge_threshold : Rat := 10
  queue_depth : Int := 100
deriving DecidableEq

/-- `DataLoggerConfig` (config.hpp). -/
structure DataLoggerConfig where
  sub_endpoint : String := ""
  db_path : String := ""
  raw_image_dir : String := ""
  annotated_image_dir : String := ""
deriving DecidableEq

/-- `AppConfig` (config.hpp). -/
structure AppConfig where
  global : GlobalConfig := {}
  generator : ImageGeneratorConfig := {}
  extractor : FeatureExtractorConfig := {}
  logger : DataLoggerConfig := {}
deriving DecidableEq

/-- `load_app_config` (config.cpp lines 44-91), field by field in source
order.  Note the fallback chain for the generator queue depth: the code
first computes `extractor_queue_fallback` from
`FEATURE_EXTRACTOR_QUEUE_DEPTH` (falling back to the struct default 100)
and passes it as the fallback for `IMAGE_GENERATOR_QUEUE_DEPTH`. -/
def load_app_config (env : EnvMap) (root_dir : String) : AppConfig :=
  let cfg : AppConfig := {}
  let extractor_queue_fallback :=
    to_int env "FEATURE_EXTRACTOR_QUEUE_DEPTH" cfg.generator.queue_depth
  { global := { log_level := get_or env "APP_LOG_LEVEL" cfg.global.log_level }
  , generator :=
    { input_dir := to_path env "IMAGE_GENERATOR_INPUT_DIR" "./data/images" root_dir
    , loop_delay_ms :=
        to_int env "IMAGE_GENERATOR_LOOP_DELAY_MS" cfg.generator.loop_delay_ms
    , start_delay_ms :=
        to_int env "IMAGE_GENERATOR_START_DELAY_MS" cfg.generator.start_delay_ms
    , subscriber_wait_ms :=
        to_int env "IMAGE_GENERATOR_SUBSCRIBER_WAIT_MS" cfg.generator.subscriber_wait_ms
    , pub_endpoint := get_or env "IMAGE_GENERATOR_PUB_ENDPOINT" "tcp://127.0.0.1:5555"
    , heartbeat_ms := to_int env "IMAGE_GENERATOR_HEARTBEAT_MS" cfg.generator.heartbeat_ms
    , queue_depth :=
        to_int env "IMAGE_GENERATOR_QUEUE_DEPTH" extractor_queue_fallback }
  , extractor :=
    { sub_endpoint := get_or env "FEATURE_EXTRACTOR_SUB_ENDPOINT" "tcp://127.0.0.1:5555"
    , pub_endpoint := get_or env "FEATURE_EXTRACTOR_PUB_ENDPOINT" "tcp://127.0.0.1:5556"
    , sift_n_features :=
        to_int env "FEATURE_EXTRACTOR_SIFT_N_FEATURES" cfg.extractor.sift_n_features
    , sift_contrast_threshold :=
        to_double env "FEATURE_EXTRACTOR_SIFT_CONTRAST_THRESHOLD"
          cfg.extractor.sift_contrast_threshold
    , sift_edge_threshold :=
        to_double env "FEATURE_EXTRACTOR_SIFT_EDGE_THRESHOLD"
          cfg.extractor.sift_edge_threshold
    , queue_depth := to_int env "FEATURE_EXTRACTOR_QUEUE_DEPTH" cfg.extractor.queue_depth }
  , logger :=
    { sub_endpoint := get_or env "DATA_LOGGER_SUB_ENDPOINT" "tcp://127.0.0.1:5556"
    , db_path := to_path env "DATA_LOGGER_DB_PATH" "./storage/dist_imaging.sqlite" root_dir
    , raw_image_dir :=
        to_path env "DATA_LOGGER_RAW_IMAGE_DIR" "./storage/raw_frames" root_dir
    , annotated_image_dir :=
        to_path env "DATA_LOGGER_ANNOTATED_DIR" "./storage/annotated_frames" root_dir } }

/-- An environment holding exactly one key. -/
def envSingle (k v : String) : EnvMap :=
  fun key => if key = k then some v else none

-- C8 -------------------------------------------------------------------

/-- C8 (counterexample): the claim says `IMAGE_GENERATOR_QUEUE_DEPTH`
defaults to 100 independently of other keys, but when it is absent and
`FEATURE_EXTRACTOR_QUEUE_DEPTH=7` is set, the generator queue depth
loads as 7. -/
theorem c8_config_defaults_cex :
    (load_app_config (envSingle "FEATURE_EXTRACTOR_QUEUE_DEPTH" "7") "/r").generator.queue_depth = 7
    ∧ (7 : Int) ≠ 100 := by
  exact ⟨by decide, by decide⟩

/-- C8 (amended): with an empty environment, every key of the table
loads as its own documented default (paths resolved against the root);
each integer key also falls back to its own default on a failed decimal
parse — except `IMAGE_GENERATOR_QUEUE_DEPTH`, which when absent or
unparsable falls back to the parsed value of
`FEATURE_EXTRACTOR_QUEUE_DEPTH` (itself defaulting to 100), so it is 100
only when that key too is absent, unparsable or 100. -/
theorem c8_config_defaults_amended (root s t : String) (m : Int)
    (hs : stoi s = some m) (ht : stoi t = none) :
    load_app_config (fun _ => none) root
      = { global := { log_level := "info" }
        , generator :=
          { input_dir := root ++ "/" ++ "./data/images"
          , loop_delay_ms := 100
          , start_delay_ms := 500
          , subscriber_wait_ms := 1000
          , pub_endpoint := "tcp://127.0.0.1:5555"
          , heartbeat_ms := 2000
          , queue_depth := 100 }
        , extractor :=
          { sub_endpoint := "tcp://127.0.0.1:5555"
          , pub_endpoint := "tcp://127.0.0.1:5556"
          , sift_n_features := 0
          , sift_contrast_threshold := 4 / 100
          , sift_edge_threshold := 10
          , queue_depth := 100 }
        , logger :=
          { sub_endpoint := "tcp://127.0.0.1:5556"
          , db_path := root ++ "/" ++ "./storage/dist_imaging.sqlite"
          , raw_image_dir := root ++ "/" ++ "./storage/raw_frames"
          , annotated_image_dir := root ++ "/" ++ "./storage/annotated_frames" } }
    ∧ (load_app_config (envSingle "FEATURE_EXTRACTOR_QUEUE_DEPTH" s) root).generator.queue_depth = m
    ∧ (load_app_config (envSingle "IMAGE_GENERATOR_QUEUE_DEPTH" t) root).generator.queue_depth = 100
    ∧ (load_app_config (envSingle "IMAGE_GENERATOR_LOOP_DELAY_MS" t) root).generator.loop_delay_ms = 100 := by
  refine ⟨rfl, ?_, ?_, ?_⟩
  · show to_int (envSingle "FEATURE_EXTRACTOR_QUEUE_DEPTH" s)
      "IMAGE_GENERATOR_QUEUE_DEPTH"
      (to_int (envSingle "FEATURE_EXTRACTOR_QUEUE_DEPTH" s)
        "FEATURE_EXTRACTOR_QUEUE_DEPTH" 100) = m
    have h1 : envSingle "FEATURE_EXTRACTOR_QUEUE_DEPTH" s "IMAGE_GENERATOR_QUEUE_DEPTH" = none := by
      unfold envSingle
      rw [if_neg (by decide)]
    have h2 : envSingle "FEATURE_EXTRACTOR_QUEUE_DEPTH" s "FEATURE_EXTRACTOR_QUEUE_DEPTH" = some s := by
      unfold envSingle
      rw [if_pos rfl]
    unfold to_int
    rw [h1, h2]
    simp [hs]
  · show to_int (envSingle "IMAGE_GENERATOR_QUEUE_DEPTH" t)
      "IMAGE_GENERATOR_QUEUE_DEPTH"
      (to_int (envSingle "IMAGE_GENERATOR_QUEUE_DEPTH" t)
        "FEATURE_EXTRACTOR_QUEUE_DEPTH" 100) = 100
    have h1 : envSingle "IMAGE_GENERATOR_QUEUE_DEPTH" t "IMAGE_GENERATOR_QUEUE_DEPTH" = some t := by
      unfold envSingle
      rw [if_pos rfl]
    have h2 : envSingle "IMAGE_GENERATOR_QUEUE_DEPTH" t "FEATURE_EXTRACTOR_QUEUE_DEPTH" = none := by
      unfold envSingle
      rw [if_neg (by decide)]
    unfold to_int
    rw [h1, h2]
    simp [ht]
  · show to_int (envSingle "IMAGE_GENERATOR_LOOP_DELAY_MS" t)
      "IMAGE_GENERATOR_LOOP_DELAY_MS" 100 = 100
    have h1 : envSingle "IMAGE_GENERATOR_LOOP_DELAY_MS" t "IMAGE_GENERATOR_LOOP_DELAY_MS" = some t := by
      unfold envSingle
      rw [if_pos rfl]
    unfold to_int
    rw [h1]
    simp [ht]

/-- C8 (witness): the fallback chain at `FEATURE_EXTRACTOR_QUEUE_DEPTH="7"`
and the unparsable value `"abc"`. -/
theorem c8_witness :
    (load_app_config (envSingle "FEATURE_EXTRACTOR_QUEUE_DEPTH" "7") "/r").generator.queue_depth = 7
    ∧ (load_app_config (envSingle "IMAGE_GENERATOR_QUEUE_DEPTH" "abc") "/r").generator.queue_depth = 100 :=
  ⟨(c8_config_defaults_amended "/r" "7" "abc" 7 (by decide) (by decide)).2.1,
   (c8_config_defaults_amended "/r" "7" "abc" 7 (by decide) (by decide)).2.2.1⟩

-- Shared library: dotenv loader (libs/common/src/env_loader.cpp) --------

/-- `is_comment_or_empty` (env_loader.cpp lines 15-26): true when the
first non-whitespace character is `#` or the line is all whitespace. -/
def is_comment_or_empty : List Char → Bool
  | [] => true
  | c :: cs =>
    if c = '#' then true
    else if isSpaceC c then is_comment_or_empty cs
    else false

/-- `EnvLoader::trim` (env_loader.cpp lines 106-118): strip leading and
trailing whitespace. -/
def trim (s : List Char) : List Char :=
  ((s.dropWhile isSpaceC).reverse.dropWhile isSpaceC).reverse

/-- `line.find('=')` plus the two `substr` calls: the text before the
first `=` and the text after it, `none` when the line has no `=`. -/
def splitAtEq : List Char → Option (List Char × List Char)
  | [] => none
  | c :: cs =>
    if c = '=' then some ([], cs)
    else (splitAtEq cs).map (fun p => (c :: p.1, p.2))

/-- `std::getline` over a whole buffer: split on newline, with no empty
final line when the buffer ends in a newline. -/
def splitLinesAux : List Char → List Char → List (List Char)
  | cur, [] => if cur.isEmpty then [] else [cur.reverse]
  | cur, c :: rest =>
    if c = '\n' then cur.reverse :: splitLinesAux [] rest
    else splitLinesAux (c :: cur) rest

/-- Lines of a buffer as `load_from_string`'s getline loop sees them. -/
def splitLines (buf : List Char) : List (List Char) :=
  splitLinesAux [] buf

/-- One line of `EnvLoader::load_from_string` (env_loader.cpp lines
44-58): comment/blank lines and lines without `=` are skipped, key and
value are trimmed, and an empty key is skipped. -/
def parseEnvLine (line : List Char) : Option (String × String) :=
  if is_comment_or_empty line then none
  else
    match splitAtEq line with
    | none => none
    | some p =>
      let key := trim p.1
      if key.isEmpty then none
      else some (String.mk key, String.mk (trim p.2))

/-- The map update `values_[key] = value`. -/
def envInsert (m : EnvMap) (k v : String) : EnvMap :=
  fun key => if key = k then some v else m key

/-- Effect of one `load_from_string` line on the map. -/
def envLineStep (acc : EnvMap) (line : List Char) : EnvMap :=
  match parseEnvLine line with
  | none => acc
  | some kv => envInsert acc kv.1 kv.2

/-- `EnvLoader::load_from_string` (env_loader.cpp lines 39-61) acting on
the loader's observable map. -/
def load_from_string (m : EnvMap) (buffer : String) : EnvMap :=
  (splitLines buffer.data).foldl envLineStep m

/-- The value of the last line of `ls` that assigns to `k`, later lines
taking priority. -/
def lastAssign (k : String) : List (List Char) → Option String
  | [] => none
  | l :: ls =>
    match lastAssign k ls with
    | some v => some v
    | none =>
      match parseEnvLine l with
      | some kv => if kv.1 = k then some kv.2 else none
      | none => none

theorem foldl_envLineStep_eq (k : String) :
    ∀ (ls : List (List Char)) (m : EnvMap),
      (ls.foldl envLineStep m) k
        = match lastAssign k ls with
          | some v => some v
          | none => m k := by
  intro ls
  induction ls with
  | nil => intro m; simp [lastAssign]
  | cons l ls ih =>
    intro m
    rw [List.foldl_cons, ih]
    cases hl : lastAssign k ls with
    | some v =>
      have hcons : lastAssign k (l :: ls) = some v := by
        unfold lastAssign
        rw [hl]
      rw [hcons]
    | none =>
      have hcons : lastAssign k (l :: ls)
          = match parseEnvLine l with
            | some kv => if kv.1 = k then some kv.2 else none
            | none => none := by
        unfold lastAssign
        rw [hl]
      rw [hcons]
      cases hp : parseEnvLine l with
      | none =>
        show envLineStep m l k = m k
        unfold envLineStep
        rw [hp]
      | some kv =>
        show envLineStep m l k
          = match (if kv.1 = k then some kv.2 else none) with
            | some v => some v
            | none => m k
        unfold envLineStep
        rw [hp]
        unfold envInsert
        show (if k = kv.1 then some kv.2 else m k)
          = match (if kv.1 = k then some kv.2 else none) with
            | some v => some v
            | none => m k
        by_cases hk : k = kv.1
        · rw [if_pos hk, if_pos hk.symm]
        · rw [if_neg hk, if_neg (fun h => hk h.symm)]

-- C9 -------------------------------------------------------------------

/-- C9: loading the same dotenv buffer twice yields exactly the same
key-to-value mapping as loading it once, and when a key occurs on
several lines of one buffer the value of the last occurrence wins. -/
theorem c9_env_idempotent (m : EnvMap) (buf : String) :
    load_from_string (load_from_string m buf) buf = load_from_string m buf
    ∧ ∀ (k v : String),
        lastAssign k (splitLines buf.data) = some v →
        load_from_string m buf k = some v := by
  constructor
  · funext k
    have h1 := foldl_envLineStep_eq k (splitLines buf.data) m
    have h2 := foldl_envLineStep_eq k (splitLines buf.data) (load_from_string m buf)
    show (load_from_string (load_from_string m buf) buf) k = (load_from_string m buf) k
    unfold load_from_string at h1 h2 ⊢
    cases hl : lastAssign k (splitLines buf.data) with
    | some v =>
      rw [hl] at h1 h2
      exact h2.trans h1.symm
    | none =>
      rw [hl] at h2
      exact h2
  · intro k v hl
    have h1 := foldl_envLineStep_eq k (splitLines buf.data) m
    rw [hl] at h1
    show (load_from_string m buf) k = some v
    unfold load_from_string
    exact h1

/-- C9 (witness): in the buffer `A=1` newline `A=2`, the later line
wins. -/
theorem c9_witness :
    load_from_string (fun _ => none) "A=1\nA=2" "A" = some "2" :=
  (c9_env_idempotent (fun _ => none) "A=1\nA=2").2 "A" "2" (by decide)
